import Mathlib

/-!
Shallow embedding of the retail insight application (`src/app.py`).

A pandas DataFrame of sales records is modelled as a `List SalesRecord`
whose six fields carry the six required CSV columns; numeric columns are
modelled as rationals.  A derived insight table is a `List InsightRow`.
The possibly-null price fields produced by the left join are `Option ℚ`
(pandas uses NaN for unmatched keys; NaN propagates through arithmetic and
`round`, which `Option.map` models).  `round(x, 2)` is modelled as
round-half-to-even at two decimal places (Python's rounding convention).
-/

/-- One row of the input table (one Sales Record), with the six required
columns `Product_ID, Store_ID, Region, Daily_Sales_Units, Base_Price,
Competitor_Price`. -/
structure SalesRecord where
  product : String
  store : String
  region : String
  daily : ℚ
  basePrice : ℚ
  compPrice : ℚ
deriving DecidableEq

/-- The grouping key of the forecast step: `(Product_ID, Store_ID, Region)`. -/
def key3 (r : SalesRecord) : String × String × String :=
  (r.product, r.store, r.region)

/-- The price-snapshot key: `(Product_ID, Store_ID)`. -/
def key2 (r : SalesRecord) : String × String :=
  (r.product, r.store)

/-- Arithmetic mean of a list of rationals (`Series.mean`); `0` on the
empty list, which never arises since pandas groups are nonempty. -/
def mean (l : List ℚ) : ℚ := l.sum / l.length

/-- Round a rational to the nearest integer, ties to even
(Python's `round` convention). -/
def roundHalfEven (q : ℚ) : ℤ :=
  let f := ⌊q⌋
  let frac := q - f
  if frac < 1/2 then f
  else if 1/2 < frac then f + 1
  else if f % 2 = 0 then f else f + 1

/-- `round(x, 2)`: round to two decimal places, ties to even. -/
def roundTo2 (q : ℚ) : ℚ := (roundHalfEven (q * 100) : ℚ) / 100

/-- `suggest_dynamic_price` (src/app.py lines 38-52): from the joined row's
`Base_Price` (possibly null) and `Inventory_Forecast_Units`, produce the
`(Suggested_Price, Pricing_Action)` pair.  A null base price propagates
through the multiplication and the rounding to a null suggested price. -/
def suggest_dynamic_price (base_price : Option ℚ) (forecast : ℚ) :
    Option ℚ × String :=
  if forecast > 70 then
    (base_price.map (fun b => roundTo2 (b * 1.05)),
      "↑ Increase Price (High Demand/Low Stock Risk)")
  else if forecast < 40 then
    (base_price.map (fun b => roundTo2 (b * 0.90)),
      "↓ Decrease Price (Low Demand/Overstock Risk)")
  else
    (base_price.map (fun b => roundTo2 b),
      "— Hold Price (Stable Demand)")

/-- `df.drop_duplicates(subset=['Product_ID','Store_ID'], keep='last')`
followed by the left join on that key amounts to looking up, for a given
`(Product_ID, Store_ID)` pair, the last input row with that pair and
keeping its `Base_Price` and `Competitor_Price`; `none` when no row has
the pair. -/
def latestPrice (rows : List SalesRecord) (k : String × String) :
    Option (ℚ × ℚ) :=
  ((rows.filter (fun r => key2 r = k)).getLast?).map
    (fun r => (r.basePrice, r.compPrice))

/-- One row of the insights table: the grouping key, the forecast, the
joined (possibly null) prices, and the two derived pricing columns. -/
structure InsightRow where
  product : String
  store : String
  region : String
  forecast : ℚ
  basePrice : Option ℚ
  compPrice : Option ℚ
  suggested : Option ℚ
  action : String
deriving DecidableEq

/-- The insight row built for one distinct `(Product_ID, Store_ID, Region)`
key: the group mean of `Daily_Sales_Units` (the forecast), the latest
prices for the `(Product_ID, Store_ID)` part of the key, and the output of
`suggest_dynamic_price`. -/
def insightForKey (rows : List SalesRecord) (k : String × String × String) :
    InsightRow :=
  let grp := rows.filter (fun r => key3 r = k)
  let forecast := mean (grp.map (fun r => r.daily))
  let price := latestPrice rows (k.1, k.2.1)
  let res := suggest_dynamic_price (price.map Prod.fst) forecast
  { product := k.1
    store := k.2.1
    region := k.2.2
    forecast := forecast
    basePrice := price.map Prod.fst
    compPrice := price.map Prod.snd
    suggested := res.1
    action := res.2 }

/-- `get_retail_insights` (src/app.py lines 19-58): `None` in, `None` out;
otherwise one insight row per distinct `(Product_ID, Store_ID, Region)`
key occurring in the input. -/
def get_retail_insights (df : Option (List SalesRecord)) :
    Option (List InsightRow) :=
  match df with
  | none => none
  | some rows => some (((rows.map key3).dedup).map (insightForKey rows))

/-- The module-level constant `DATA_FILE`. -/
def DATA_FILE : String := "retail_data.csv"

/-- The three possible outcomes of `pd.read_csv(DATA_FILE)` as seen by the
`try/except` in `load_data`: a parsed table, a `FileNotFoundError`, or any
other exception carrying a textual description. -/
inductive ReadResult where
  | ok (rows : List SalesRecord)
  | fileNotFound
  | failure (description : String)
deriving DecidableEq

/-- `load_data` (src/app.py lines 9-17): returns the pair
`(dataframe-or-None, error-message-or-None)` for each read outcome. -/
def load_data (res : ReadResult) : Option (List SalesRecord) × Option String :=
  match res with
  | .ok rows => (some rows, none)
  | .fileNotFound =>
      (none, some ("Error: Data file \x27" ++ DATA_FILE ++ "\x27 not found."))
  | .failure e => (none, some ("An unexpected error occurred: " ++ e))

/-! ### Helper lemmas -/

lemma roundHalfEven_intCast (n : ℤ) : roundHalfEven (n : ℚ) = n := by
  simp [roundHalfEven]

lemma roundTo2_eq_of_mul_eq (q : ℚ) (n : ℤ) (h : q * 100 = (n : ℚ)) :
    roundTo2 q = (n : ℚ) / 100 := by
  rw [roundTo2, h, roundHalfEven_intCast]

lemma roundHalfEven_of_nonneg_lt_half (q : ℚ) (h0 : 0 ≤ q) (h : q < 1/2) :
    roundHalfEven q = 0 := by
  have hf : ⌊q⌋ = 0 := Int.floor_eq_zero_iff.mpr ⟨h0, lt_trans h (by norm_num)⟩
  simp [roundHalfEven, hf, h]
  intro hge
  linarith

lemma suggest_increase (bp : Option ℚ) (f : ℚ) (h : f > 70) :
    suggest_dynamic_price bp f =
      (bp.map (fun b => roundTo2 (b * 1.05)),
        "↑ Increase Price (High Demand/Low Stock Risk)") := by
  simp [suggest_dynamic_price, h]

lemma suggest_decrease (bp : Option ℚ) (f : ℚ) (h1 : ¬ f > 70) (h2 : f < 40) :
    suggest_dynamic_price bp f =
      (bp.map (fun b => roundTo2 (b * 0.90)),
        "↓ Decrease Price (Low Demand/Overstock Risk)") := by
  simp [suggest_dynamic_price, h1, h2]

lemma suggest_hold (bp : Option ℚ) (f : ℚ) (h1 : ¬ f > 70) (h2 : ¬ f < 40) :
    suggest_dynamic_price bp f =
      (bp.map (fun b => roundTo2 b), "— Hold Price (Stable Demand)") := by
  simp [suggest_dynamic_price, h1, h2]

lemma mem_insights {rows : List SalesRecord} {out : List InsightRow}
    {row : InsightRow} (hout : get_retail_insights (some rows) = some out)
    (hmem : row ∈ out) :
    ∃ k ∈ (rows.map key3).dedup, row = insightForKey rows k := by
  simp only [get_retail_insights, Option.some.injEq] at hout
  subst hout
  obtain ⟨k, hk, he⟩ := List.mem_map.mp hmem
  exact ⟨k, hk, he.symm⟩

lemma exists_row_of_mem_dedup {rows : List SalesRecord}
    {k : String × String × String} (hk : k ∈ (rows.map key3).dedup) :
    ∃ r ∈ rows, key3 r = k := by
  rw [List.mem_dedup] at hk
  exact List.mem_map.mp hk

lemma filter_key2_getLast {rows : List SalesRecord} {k : String × String}
    (h : ∃ r ∈ rows, key2 r = k) :
    ∃ rec, rec ∈ rows ∧ key2 rec = k ∧
      (rows.filter (fun x => key2 x = k)).getLast? = some rec := by
  obtain ⟨r, hr, hk⟩ := h
  have hne : rows.filter (fun x => key2 x = k) ≠ [] :=
    List.ne_nil_of_mem (List.mem_filter.mpr ⟨hr, by simp [hk]⟩)
  refine ⟨(rows.filter (fun x => key2 x = k)).getLast hne, ?_, ?_, ?_⟩
  · exact (List.mem_filter.mp (List.getLast_mem hne)).1
  · have := (List.mem_filter.mp (List.getLast_mem hne)).2
    simpa using this
  · exact List.getLast?_eq_getLast_of_ne_nil hne

lemma insightForKey_forecast (rows : List SalesRecord)
    (k : String × String × String) :
    (insightForKey rows k).forecast =
      mean ((rows.filter (fun r => key3 r = k)).map (fun r => r.daily)) := rfl

lemma insightForKey_basePrice (rows : List SalesRecord)
    (k : String × String × String) :
    (insightForKey rows k).basePrice =
      (latestPrice rows (k.1, k.2.1)).map Prod.fst := rfl

lemma insightForKey_compPrice (rows : List SalesRecord)
    (k : String × String × String) :
    (insightForKey rows k).compPrice =
      (latestPrice rows (k.1, k.2.1)).map Prod.snd := rfl

lemma insightForKey_suggested (rows : List SalesRecord)
    (k : String × String × String) :
    (insightForKey rows k).suggested =
      (suggest_dynamic_price ((latestPrice rows (k.1, k.2.1)).map Prod.fst)
        (insightForKey rows k).forecast).1 := rfl

lemma insightForKey_action (rows : List SalesRecord)
    (k : String × String × String) :
    (insightForKey rows k).action =
      (suggest_dynamic_price ((latestPrice rows (k.1, k.2.1)).map Prod.fst)
        (insightForKey rows k).forecast).2 := rfl

lemma insightForKey_key (rows : List SalesRecord)
    (k : String × String × String) :
    ((insightForKey rows k).product, (insightForKey rows k).store,
      (insightForKey rows k).region) = k := rfl

lemma insights_singleton (r : SalesRecord) :
    get_retail_insights (some [r]) =
      some [{ product := r.product, store := r.store, region := r.region,
              forecast := r.daily,
              basePrice := some r.basePrice, compPrice := some r.compPrice,
              suggested := (suggest_dynamic_price (some r.basePrice) r.daily).1,
              action := (suggest_dynamic_price (some r.basePrice) r.daily).2 }] := by
  simp [get_retail_insights, insightForKey, latestPrice, mean, key3, key2]

/-! ### Concrete datasets used as witnesses and counterexamples -/

/-- A single-row dataset whose base price has more than two decimal
places and whose forecast falls in the hold band. -/
def dfC1 : List SalesRecord := [⟨"P1", "S1", "R1", 50, 1/1000, 95⟩]

/-- The insight row the pipeline produces for `dfC1`. -/
def rowC1 : InsightRow :=
  ⟨"P1", "S1", "R1", 50, some (1/1000), some 95, some 0,
    "— Hold Price (Stable Demand)"⟩

lemma roundTo2_thousandth : roundTo2 ((1000 : ℚ)⁻¹) = 0 := by
  rw [roundTo2, roundHalfEven_of_nonneg_lt_half _ (by norm_num) (by norm_num)]
  norm_num

lemma evalC1 : get_retail_insights (some dfC1) = some [rowC1] := by
  have hs := insights_singleton ⟨"P1", "S1", "R1", 50, 1/1000, 95⟩
  rw [suggest_hold _ _ (by norm_num) (by norm_num)] at hs
  show get_retail_insights
      (some [(⟨"P1", "S1", "R1", 50, 1/1000, 95⟩ : SalesRecord)]) = some [rowC1]
  rw [hs]
  simp [rowC1, roundTo2_thousandth]

/-- The spec's increase scenario `(P2,S2,R2,80,50,48)`. -/
def dfC2 : List SalesRecord := [⟨"P2", "S2", "R2", 80, 50, 48⟩]

/-- The insight row the pipeline produces for `dfC2`. -/
def rowC2 : InsightRow :=
  ⟨"P2", "S2", "R2", 80, some 50, some 48, some (105/2),
    "↑ Increase Price (High Demand/Low Stock Risk)"⟩

lemma roundTo2_C2 : roundTo2 ((50 : ℚ) * 1.05) = 105/2 := by
  rw [roundTo2_eq_of_mul_eq _ 5250 (by norm_num)]
  norm_num

lemma evalC2 : get_retail_insights (some dfC2) = some [rowC2] := by
  have hs := insights_singleton ⟨"P2", "S2", "R2", 80, 50, 48⟩
  rw [suggest_increase _ _ (by norm_num)] at hs
  show get_retail_insights
      (some [(⟨"P2", "S2", "R2", 80, 50, 48⟩ : SalesRecord)]) = some [rowC2]
  rw [hs]
  simp [rowC2, roundTo2_C2]

/-- The spec's decrease scenario `(P3,S3,R3,10,50,48)`. -/
def dfC3 : List SalesRecord := [⟨"P3", "S3", "R3", 10, 50, 48⟩]

/-- The insight row the pipeline produces for `dfC3`. -/
def rowC3 : InsightRow :=
  ⟨"P3", "S3", "R3", 10, some 50, some 48, some 45,
    "↓ Decrease Price (Low Demand/Overstock Risk)"⟩

lemma roundTo2_C3 : roundTo2 ((50 : ℚ) * 0.90) = 45 := by
  rw [roundTo2_eq_of_mul_eq _ 4500 (by norm_num)]
  norm_num

lemma evalC3 : get_retail_insights (some dfC3) = some [rowC3] := by
  have hs := insights_singleton ⟨"P3", "S3", "R3", 10, 50, 48⟩
  rw [suggest_decrease _ _ (by norm_num) (by norm_num)] at hs
  show get_retail_insights
      (some [(⟨"P3", "S3", "R3", 10, 50, 48⟩ : SalesRecord)]) = some [rowC3]
  rw [hs]
  simp [rowC3, roundTo2_C3]

lemma insights_of_dedup_single {rows : List SalesRecord}
    {k : String × String × String}
    (hded : (rows.map key3).dedup = [k]) :
    get_retail_insights (some rows) = some [insightForKey rows k] := by
  simp [get_retail_insights, hded]

/-- The spec's hold scenario: three rows for the same key with mixed sales
units; the last row defines the price snapshot. -/
def dfC4 : List SalesRecord :=
  [⟨"P1", "S1", "R1", 10, 100, 95⟩, ⟨"P1", "S1", "R1", 90, 100, 95⟩,
   ⟨"P1", "S1", "R1", 50, 100, 95⟩]

/-- The insight row the pipeline produces for `dfC4`. -/
def rowC4 : InsightRow :=
  ⟨"P1", "S1", "R1", 50, some 100, some 95, some 100,
    "— Hold Price (Stable Demand)"⟩

lemma roundTo2_100 : roundTo2 (100 : ℚ) = 100 := by
  rw [roundTo2_eq_of_mul_eq _ 10000 (by norm_num)]
  norm_num

lemma evalC4 : get_retail_insights (some dfC4) = some [rowC4] := by
  have hded : (dfC4.map key3).dedup = [("P1", "S1", "R1")] := by
    simp [dfC4, key3]
  have hfor : mean ((dfC4.filter
      (fun r => key3 r = ("P1", "S1", "R1"))).map (fun r => r.daily)) = 50 := by
    simp [dfC4, key3, mean]
    norm_num
  have hlp : latestPrice dfC4 ("P1", "S1") = some (100, 95) := by
    simp [dfC4, latestPrice, key2]
  have hs := suggest_hold (some (100 : ℚ)) 50 (by norm_num) (by norm_num)
  rw [insights_of_dedup_single hded]
  simp [insightForKey, hfor, hlp, hs, roundTo2_100, rowC4]

/-- Three rows for one key with three different price pairs, so that the
row-order "last price wins" policy is observable. -/
def dfC6 : List SalesRecord :=
  [⟨"P1", "S1", "R1", 10, 100, 95⟩, ⟨"P1", "S1", "R1", 90, 101, 96⟩,
   ⟨"P1", "S1", "R1", 50, 102, 97⟩]

/-- The insight row the pipeline produces for `dfC6`: the prices come from
the third (last) input row. -/
def rowC6 : InsightRow :=
  ⟨"P1", "S1", "R1", 50, some 102, some 97, some 102,
    "— Hold Price (Stable Demand)"⟩

lemma roundTo2_102 : roundTo2 (102 : ℚ) = 102 := by
  rw [roundTo2_eq_of_mul_eq _ 10200 (by norm_num)]
  norm_num

lemma evalC6 : get_retail_insights (some dfC6) = some [rowC6] := by
  have hded : (dfC6.map key3).dedup = [("P1", "S1", "R1")] := by
    simp [dfC6, key3]
  have hfor : mean ((dfC6.filter
      (fun r => key3 r = ("P1", "S1", "R1"))).map (fun r => r.daily)) = 50 := by
    simp [dfC6, key3, mean]
    norm_num
  have hlp : latestPrice dfC6 ("P1", "S1") = some (102, 97) := by
    simp [dfC6, latestPrice, key2]
  have hs := suggest_hold (some (102 : ℚ)) 50 (by norm_num) (by norm_num)
  rw [insights_of_dedup_single hded]
  simp [insightForKey, hfor, hlp, hs, roundTo2_102, rowC6]

/-- A single-row dataset for the row-count claim. -/
def dfC5 : List SalesRecord := [⟨"P5", "S5", "R5", 55, 10, 9⟩]

/-- The insight row the pipeline produces for `dfC5`. -/
def rowC5 : InsightRow :=
  ⟨"P5", "S5", "R5", 55, some 10, some 9, some 10,
    "— Hold Price (Stable Demand)"⟩

lemma roundTo2_10 : roundTo2 (10 : ℚ) = 10 := by
  rw [roundTo2_eq_of_mul_eq _ 1000 (by norm_num)]
  norm_num

lemma evalC5 : get_retail_insights (some dfC5) = some [rowC5] := by
  have hs := insights_singleton ⟨"P5", "S5", "R5", 55, 10, 9⟩
  rw [suggest_hold _ _ (by norm_num) (by norm_num)] at hs
  show get_retail_insights
      (some [(⟨"P5", "S5", "R5", 55, 10, 9⟩ : SalesRecord)]) = some [rowC5]
  rw [hs]
  simp [rowC5, roundTo2_10]

/-- A single-row dataset for the no-null-prices invariant claim. -/
def dfC10 : List SalesRecord := [⟨"PX", "SX", "RX", 42, 7, 6⟩]

/-- The insight row the pipeline produces for `dfC10`. -/
def rowC10 : InsightRow :=
  ⟨"PX", "SX", "RX", 42, some 7, some 6, some 7,
    "— Hold Price (Stable Demand)"⟩

lemma roundTo2_7 : roundTo2 (7 : ℚ) = 7 := by
  rw [roundTo2_eq_of_mul_eq _ 700 (by norm_num)]
  norm_num

lemma evalC10 : get_retail_insights (some dfC10) = some [rowC10] := by
  have hs := insights_singleton ⟨"PX", "SX", "RX", 42, 7, 6⟩
  rw [suggest_hold _ _ (by norm_num) (by norm_num)] at hs
  show get_retail_insights
      (some [(⟨"PX", "SX", "RX", 42, 7, 6⟩ : SalesRecord)]) = some [rowC10]
  rw [hs]
  simp [rowC10, roundTo2_7]

/-! ### Claim theorems -/

/-- Claim C1, counterexample: the claim says the hold branch leaves the
Suggested Price equal to the Base Price unchanged, but the code applies
`round(new_price, 2)` in every branch.  On the single-row dataset `dfC1`
(base price `1/1000`, forecast `50` in the hold band) the pipeline emits
Suggested Price `0`, not `1/1000`. -/
theorem hold_branch_counterexample :
    ∃ out, get_retail_insights (some dfC1) = some out ∧
      ∃ row ∈ out, 40 ≤ row.forecast ∧ row.forecast ≤ 70 ∧
        row.basePrice = some (1/1000) ∧ row.suggested = some 0 ∧
        row.suggested ≠ row.basePrice := by
  refine ⟨[rowC1], evalC1, rowC1, List.mem_singleton_self _, ?_, ?_, ?_, ?_, ?_⟩
  · norm_num [rowC1]
  · norm_num [rowC1]
  · norm_num [rowC1]
  · rfl
  · simp only [rowC1, ne_eq, Option.some.injEq]
    norm_num

/-- Claim C1 as amended: for every joined row whose forecast lies in
`[40, 70]` the pipeline sets Suggested Price to `round(Base Price, 2)` —
the Base Price unchanged except for rounding to two decimal places — and
sets the Pricing Action to the label `Hold Price (Stable Demand)`,
preceded in the code by a dash marker glyph. -/
theorem hold_branch_rounds_base_price (rows : List SalesRecord)
    (out : List InsightRow) (row : InsightRow)
    (hout : get_retail_insights (some rows) = some out) (hmem : row ∈ out)
    (h40 : 40 ≤ row.forecast) (h70 : row.forecast ≤ 70) :
    row.suggested = row.basePrice.map (fun b => roundTo2 b) ∧
    row.action = "— " ++ "Hold Price (Stable Demand)" := by
  obtain ⟨k, hk, hrow⟩ := mem_insights hout hmem
  subst hrow
  have h1 : ¬ (insightForKey rows k).forecast > 70 := not_lt.mpr h70
  have h2 : ¬ (insightForKey rows k).forecast < 40 := not_lt.mpr h40
  rw [insightForKey_suggested, insightForKey_action, insightForKey_basePrice,
    suggest_hold _ _ h1 h2]
  exact ⟨rfl, rfl⟩

/-- Witness for `hold_branch_rounds_base_price` at the dataset `dfC1`. -/
theorem hold_branch_rounds_base_price_witness :
    get_retail_insights (some dfC1) = some [rowC1] ∧ rowC1 ∈ [rowC1] ∧
      40 ≤ rowC1.forecast ∧ rowC1.forecast ≤ 70 ∧
      (rowC1.suggested = rowC1.basePrice.map (fun b => roundTo2 b) ∧
        rowC1.action = "— " ++ "Hold Price (Stable Demand)") :=
  ⟨evalC1, List.mem_singleton_self _, by norm_num [rowC1], by norm_num [rowC1],
    hold_branch_rounds_base_price dfC1 [rowC1] rowC1 evalC1
      (List.mem_singleton_self _) (by norm_num [rowC1]) (by norm_num [rowC1])⟩

/-- Claim C2: for every joined row with forecast above 70 the pipeline sets
Suggested Price to `round(Base Price * 1.05, 2)` and the Pricing Action to
the label `Increase Price (High Demand/Low Stock Risk)`, preceded in the
code by an upward-arrow marker glyph. -/
theorem increase_branch (rows : List SalesRecord) (out : List InsightRow)
    (row : InsightRow) (hout : get_retail_insights (some rows) = some out)
    (hmem : row ∈ out) (hf : row.forecast > 70) :
    row.suggested = row.basePrice.map (fun b => roundTo2 (b * 1.05)) ∧
    row.action = "↑ " ++ "Increase Price (High Demand/Low Stock Risk)" := by
  obtain ⟨k, hk, hrow⟩ := mem_insights hout hmem
  subst hrow
  rw [insightForKey_suggested, insightForKey_action, insightForKey_basePrice,
    suggest_increase _ _ hf]
  exact ⟨rfl, rfl⟩

/-- Witness for `increase_branch` at the spec's scenario `(P2,S2,R2,80,50,48)`:
the suggested price is `52.5`. -/
theorem increase_branch_witness :
    get_retail_insights (some dfC2) = some [rowC2] ∧ rowC2 ∈ [rowC2] ∧
      rowC2.forecast > 70 ∧
      (rowC2.suggested = rowC2.basePrice.map (fun b => roundTo2 (b * 1.05)) ∧
        rowC2.action = "↑ " ++ "Increase Price (High Demand/Low Stock Risk)") ∧
      rowC2.suggested = some (52.5 : ℚ) :=
  ⟨evalC2, List.mem_singleton_self _, by norm_num [rowC2],
    increase_branch dfC2 [rowC2] rowC2 evalC2 (List.mem_singleton_self _)
      (by norm_num [rowC2]),
    by norm_num [rowC2]⟩

/-- Claim C3: for every joined row with forecast below 40 the pipeline sets
Suggested Price to `round(Base Price * 0.90, 2)` and the Pricing Action to
the label `Decrease Price (Low Demand/Overstock Risk)`, preceded in the
code by a downward-arrow marker glyph. -/
theorem decrease_branch (rows : List SalesRecord) (out : List InsightRow)
    (row : InsightRow) (hout : get_retail_insights (some rows) = some out)
    (hmem : row ∈ out) (hf : row.forecast < 40) :
    row.suggested = row.basePrice.map (fun b => roundTo2 (b * 0.90)) ∧
    row.action = "↓ " ++ "Decrease Price (Low Demand/Overstock Risk)" := by
  obtain ⟨k, hk, hrow⟩ := mem_insights hout hmem
  subst hrow
  have h1 : ¬ (insightForKey rows k).forecast > 70 := by
    rw [not_lt]
    exact le_trans (le_of_lt hf) (by norm_num)
  rw [insightForKey_suggested, insightForKey_action, insightForKey_basePrice,
    suggest_decrease _ _ h1 hf]
  exact ⟨rfl, rfl⟩

/-- Witness for `decrease_branch` at the spec's scenario `(P3,S3,R3,10,50,48)`:
the suggested price is `45.0`. -/
theorem decrease_branch_witness :
    get_retail_insights (some dfC3) = some [rowC3] ∧ rowC3 ∈ [rowC3] ∧
      rowC3.forecast < 40 ∧
      (rowC3.suggested = rowC3.basePrice.map (fun b => roundTo2 (b * 0.90)) ∧
        rowC3.action = "↓ " ++ "Decrease Price (Low Demand/Overstock Risk)") ∧
      rowC3.suggested = some (45 : ℚ) :=
  ⟨evalC3, List.mem_singleton_self _, by norm_num [rowC3],
    decrease_branch dfC3 [rowC3] rowC3 evalC3 (List.mem_singleton_self _)
      (by norm_num [rowC3]),
    by norm_num [rowC3]⟩

/-- Claim C4: every output row's Inventory Forecast Units equals the
arithmetic mean (sum divided by count) of Daily Sales Units over exactly
the input records sharing that row's `(Product, Store, Region)` key, and
that group is nonempty. -/
theorem forecast_is_group_mean (rows : List SalesRecord)
    (out : List InsightRow) (row : InsightRow)
    (hout : get_retail_insights (some rows) = some out) (hmem : row ∈ out) :
    rows.filter (fun r => key3 r = (row.product, row.store, row.region)) ≠ [] ∧
    row.forecast =
      ((rows.filter
          (fun r => key3 r = (row.product, row.store, row.region))).map
            (fun r => r.daily)).sum /
        (((rows.filter
          (fun r => key3 r = (row.product, row.store, row.region))).map
            (fun r => r.daily)).length : ℚ) := by
  obtain ⟨k, hk, hrow⟩ := mem_insights hout hmem
  subst hrow
  rw [insightForKey_key]
  refine ⟨?_, rfl⟩
  obtain ⟨r, hr, hkey⟩ := exists_row_of_mem_dedup hk
  exact List.ne_nil_of_mem (List.mem_filter.mpr ⟨hr, by simp [hkey]⟩)

/-- Witness for `forecast_is_group_mean` at the spec's three-row scenario:
the single output row's forecast is the mean `(10+90+50)/3 = 50`. -/
theorem forecast_is_group_mean_witness :
    get_retail_insights (some dfC4) = some [rowC4] ∧ rowC4 ∈ [rowC4] ∧
      (dfC4.filter
          (fun r => key3 r = (rowC4.product, rowC4.store, rowC4.region)) ≠ [] ∧
        rowC4.forecast =
          ((dfC4.filter
              (fun r => key3 r = (rowC4.product, rowC4.store, rowC4.region))).map
                (fun r => r.daily)).sum /
            (((dfC4.filter
              (fun r => key3 r = (rowC4.product, rowC4.store, rowC4.region))).map
                (fun r => r.daily)).length : ℚ)) ∧
      rowC4.forecast = 50 :=
  ⟨evalC4, List.mem_singleton_self _,
    forecast_is_group_mean dfC4 [rowC4] rowC4 evalC4 (List.mem_singleton_self _),
    rfl⟩

/-- Claim C5: the output has exactly one row per distinct
`(Product, Store, Region)` triple occurring in the input. -/
theorem output_length_eq_distinct_keys (rows : List SalesRecord)
    (out : List InsightRow)
    (hout : get_retail_insights (some rows) = some out) :
    out.length = ((rows.map key3).toFinset).card := by
  simp only [get_retail_insights, Option.some.injEq] at hout
  subst hout
  rw [List.length_map, List.card_toFinset]

/-- Witness for `output_length_eq_distinct_keys` at the dataset `dfC5`. -/
theorem output_length_eq_distinct_keys_witness :
    get_retail_insights (some dfC5) = some [rowC5] ∧
      [rowC5].length = ((dfC5.map key3).toFinset).card :=
  ⟨evalC5, output_length_eq_distinct_keys dfC5 [rowC5] evalC5⟩

/-- Claim C6: every output row's Base Price and Competitor Price come from
the input record with that row's `(Product, Store)` pair that occurs last
in the input's row order (the last element of the order-preserving filter
by that pair). -/
theorem prices_from_last_matching_row (rows : List SalesRecord)
    (out : List InsightRow) (row : InsightRow)
    (hout : get_retail_insights (some rows) = some out) (hmem : row ∈ out) :
    ∃ rec, rec ∈ rows ∧ key2 rec = (row.product, row.store) ∧
      (rows.filter
        (fun r => key2 r = (row.product, row.store))).getLast? = some rec ∧
      row.basePrice = some rec.basePrice ∧
      row.compPrice = some rec.compPrice := by
  obtain ⟨k, hk, hrow⟩ := mem_insights hout hmem
  subst hrow
  obtain ⟨r, hr, hkey⟩ := exists_row_of_mem_dedup hk
  have hk2 : key2 r = (k.1, k.2.1) := by
    simp only [key2, Prod.mk.injEq]
    exact ⟨congrArg Prod.fst hkey, congrArg (fun p => p.2.1) hkey⟩
  obtain ⟨rec, hrecmem, hreck, hlast⟩ := filter_key2_getLast ⟨r, hr, hk2⟩
  refine ⟨rec, hrecmem, hreck, hlast, ?_, ?_⟩
  · rw [insightForKey_basePrice, latestPrice, hlast]
    rfl
  · rw [insightForKey_compPrice, latestPrice, hlast]
    rfl

/-- Witness for `prices_from_last_matching_row` at the three-row dataset
`dfC6` whose three rows carry different prices: the output carries the
prices `(102, 97)` of the last row. -/
theorem prices_from_last_matching_row_witness :
    get_retail_insights (some dfC6) = some [rowC6] ∧ rowC6 ∈ [rowC6] ∧
      (∃ rec, rec ∈ dfC6 ∧ key2 rec = (rowC6.product, rowC6.store) ∧
        (dfC6.filter
          (fun r => key2 r = (rowC6.product, rowC6.store))).getLast? = some rec ∧
        rowC6.basePrice = some rec.basePrice ∧
        rowC6.compPrice = some rec.compPrice) ∧
      rowC6.basePrice = some 102 ∧ rowC6.compPrice = some 97 :=
  ⟨evalC6, List.mem_singleton_self _,
    prices_from_last_matching_row dfC6 [rowC6] rowC6 evalC6
      (List.mem_singleton_self _),
    rfl, rfl⟩

/-- Claim C7: on a joined row with a null Base Price the pricing rule
produces a null Suggested Price (it is a total function, never a failure),
and the Pricing Action it assigns is determined by the forecast value
alone — it is the same action the rule assigns for any base price. -/
theorem null_base_price_handled (forecast : ℚ) :
    (suggest_dynamic_price none forecast).1 = none ∧
    ∀ bp : Option ℚ, (suggest_dynamic_price bp forecast).2 =
      (suggest_dynamic_price none forecast).2 := by
  by_cases h1 : forecast > 70
  · constructor
    · rw [suggest_increase _ _ h1]
      rfl
    · intro bp
      rw [suggest_increase bp _ h1, suggest_increase none _ h1]
  · by_cases h2 : forecast < 40
    · constructor
      · rw [suggest_decrease _ _ h1 h2]
        rfl
      · intro bp
        rw [suggest_decrease bp _ h1 h2, suggest_decrease none _ h1 h2]
    · constructor
      · rw [suggest_hold _ _ h1 h2]
        rfl
      · intro bp
        rw [suggest_hold bp _ h1 h2, suggest_hold none _ h1 h2]

/-- Claim C8: the Data Loader is a total function on read outcomes (it
never propagates an exception).  A missing file yields a null dataset
together with a message that contains the configured path `DATA_FILE`;
any other read failure yields a null dataset together with a message
carrying the underlying error's description. -/
theorem load_data_reports_errors :
    ((load_data ReadResult.fileNotFound).1 = none ∧
      ∃ pre post, (load_data ReadResult.fileNotFound).2 =
        some (pre ++ DATA_FILE ++ post)) ∧
    ∀ e, (load_data (ReadResult.failure e)).1 = none ∧
      (load_data (ReadResult.failure e)).2 =
        some ("An unexpected error occurred: " ++ e) :=
  ⟨⟨rfl, "Error: Data file \x27", "\x27 not found.", rfl⟩,
    fun _ => ⟨rfl, rfl⟩⟩

/-- Claim C9: the Insight Engine is a pure function of its input: two
invocations on the same dataset give identical results, and a null input
yields a null output. -/
theorem insight_engine_pure :
    (∀ df : Option (List SalesRecord),
        get_retail_insights df = get_retail_insights df) ∧
    get_retail_insights none = none :=
  ⟨fun _ => rfl, rfl⟩

/-- Claim C10: since the price snapshots are computed from the same rows
as the forecast groups, the left join always finds a match: no output row
has null price fields (the input price columns are total in this model). -/
theorem joined_rows_have_prices (rows : List SalesRecord)
    (out : List InsightRow) (row : InsightRow)
    (hout : get_retail_insights (some rows) = some out) (hmem : row ∈ out) :
    row.basePrice ≠ none ∧ row.compPrice ≠ none := by
  obtain ⟨k, hk, hrow⟩ := mem_insights hout hmem
  subst hrow
  obtain ⟨r, hr, hkey⟩ := exists_row_of_mem_dedup hk
  have hk2 : key2 r = (k.1, k.2.1) := by
    simp only [key2, Prod.mk.injEq]
    exact ⟨congrArg Prod.fst hkey, congrArg (fun p => p.2.1) hkey⟩
  obtain ⟨rec, _, _, hlast⟩ := filter_key2_getLast ⟨r, hr, hk2⟩
  rw [insightForKey_basePrice, insightForKey_compPrice, latestPrice, hlast]
  exact ⟨by simp, by simp⟩

/-- Witness for `joined_rows_have_prices` at the dataset `dfC10`. -/
theorem joined_rows_have_prices_witness :
    get_retail_insights (some dfC10) = some [rowC10] ∧ rowC10 ∈ [rowC10] ∧
      (rowC10.basePrice ≠ none ∧ rowC10.compPrice ≠ none) :=
  ⟨evalC10, List.mem_singleton_self _,
    joined_rows_have_prices dfC10 [rowC10] rowC10 evalC10
      (List.mem_singleton_self _)⟩
